import Mathlib

set_option linter.unusedVariables false

/-!
Shallow embedding of the scraper in `src/tmfs_scraping.py`.

The program fetches category listing pages of one shop, follows pagination
recursively, parses up to three product pages per listing page into record
objects, and finally exports them.  Pure data that the program inspects in a
fetched HTML document (product-title anchors, the variations form, JSON-LD
script blocks, the pagination widget) is modelled by the `Html` structure;
the network is a function from URLs to such documents; side effects
(`time.sleep`, `session.get`) are recorded in an event trace; Python
exceptions are modelled by `Except PyErr`.
-/

/-- Monetary amounts as decoded from the page JSON.  The program never
computes with prices, it only copies them into records, so integers are
enough to model them. -/
abbrev Price := Int

/-- Sleep durations in seconds.  The program never computes with them either,
it only hands them to `time.sleep`. -/
abbrev Seconds := Nat

/-- Python exceptions that the modelled code can raise.
`attrError` models `AttributeError` (attribute access on `None`),
`typeError` models `TypeError` (e.g. `json.loads(None)` or `None[0]`),
`indexError` models `IndexError` (`[...][0]` on an empty list),
`jsonError` models `json.JSONDecodeError`,
`validationError` models a pydantic `ValidationError` (required field absent),
`requestError` models `requests` rejecting a `None` URL, and
`recursionError` models exhausting the interpreter's recursion limit. -/
inductive PyErr where
  | attrError
  | typeError
  | indexError
  | jsonError
  | validationError
  | requestError
  | recursionError
deriving DecidableEq, Repr

/-- The result of running `json.loads` on an embedded raw payload: either the
text is not valid JSON, or it decodes to a value of the expected shape. -/
inductive Payload (α : Type) where
  | malformed
  | ok (val : α)
deriving DecidableEq, Repr

/-- One entry of the decoded `data-product_variations` payload.  `attributes`
models `item.get("attributes")` (a JSON object, kept as a key/value list in
its encoded order; `none` when the key is absent), and `display_price`
models `item.get("display_price")`. -/
structure VariantEntry where
  attributes : Option (List (String × String))
  display_price : Option Price
deriving DecidableEq, Repr

/-- One entry of the `offers` list of a JSON-LD payload; `price` models
`offer.get("price")`. -/
structure Offer where
  price : Option Price
deriving DecidableEq, Repr

/-- A decoded JSON-LD structured-data payload, restricted to the fields the
scraper reads: `data_json.get("offers")` and `data_json.get("description")`. -/
structure LdJson where
  offers : Option (List Offer)
  description : Option String
deriving DecidableEq, Repr

/-- A `<script>` tag as seen by the scraper: its `type` attribute, its
(single-valued, possibly absent) `class` attribute, and the decode result of
its text. -/
structure ScriptTag where
  type_attr : String
  class_attr : Option String
  text : Payload LdJson
deriving DecidableEq, Repr

/-- The `variations_form` form element: `data_product_variations` models its
`data-product_variations` attribute (`none` when the attribute is absent,
otherwise the decode result of its raw string). -/
structure VarForm where
  data_product_variations : Option (Payload (List VariantEntry))
deriving DecidableEq, Repr

/-- The state of the pagination widget on a listing page, as probed by
`page.find("ul", class page-numbers).find("a", class next).get("href")`:
the `ul` is absent (`absent`, raising a caught `AttributeError`), the `a` is
absent (`noNext`), the `a` has no `href` (`nextNoHref`), or there is a next
link carrying a URL (`nextTo`). -/
inductive PaginationWidget where
  | absent
  | noNext
  | nextNoHref
  | nextTo (href : String)
deriving DecidableEq, Repr

/-- The aspects of one fetched HTML document that the scraper inspects.
`product_links` are the hrefs of the anchors inside `h3.product-title`
elements (source line 49); `pagination` is the pagination widget;
`title` is the text of `h1.product_title` when present; `variations_form`
is the variations form when present; `scripts` are the script tags in
document order.  The defaults describe a body with none of these (for
example a 404 page). -/
structure Html where
  product_links : List String := []
  pagination : PaginationWidget := PaginationWidget.absent
  title : Option String := none
  variations_form : Option VarForm := none
  scripts : List ScriptTag := []
deriving DecidableEq, Repr

/-- The capture date: `date.today()` evaluated once when the module loads,
hence one constant for the whole run. -/
def run_date : String := "2026-10-12"

/-- The `Product` pydantic model specialised to the `Themarket` subclass,
which fixes `source` and `currency`; unset optional fields keep their `None`
default. -/
structure Product where
  link : String
  source : String
  category : Option String := none
  subcategory : Option String := none
  subsubcategory : Option String := none
  name : Option String := none
  brand : Option String := none
  size : Option String := none
  uid : Option String := none
  price : Price
  regular_price : Option Price := none
  currency : String
  in_stock : Option String := none
  description : Option String := none
  date : String := run_date
deriving DecidableEq, Repr

/-- The mutable `parsed_product` dictionary built inside the product loop.
A field is `none` exactly when the corresponding key has not been assigned
(the code never assigns any other key). -/
structure ParsedProduct where
  link : Option String := none
  name : Option String := none
  size : Option String := none
  price : Option Price := none
  description : Option String := none
deriving DecidableEq, Repr

/-- `Themarket(**parsed_product)`: pydantic requires `link` and `price`
(raising a `ValidationError` otherwise), copies the optional keys, and fills
every remaining field from its model default — in particular `category`,
which the dictionary never contains, defaults to `None`. -/
def mkThemarket (pp : ParsedProduct) : Except PyErr Product :=
  match pp.link, pp.price with
  | some l, some p =>
      Except.ok { link := l, source := "The Market Food Shop",
                  name := pp.name, size := pp.size, price := p,
                  currency := "NGN", description := pp.description }
  | _, _ => Except.error PyErr.validationError

/-- Python's `s.startswith(pre)`: the characters of `pre` are a leading
segment of the characters of `s`. -/
def py_startswith (s pre : String) : Bool := pre.data.isPrefixOf s.data

/-- The list comprehension of source line 61 minus its final `[0]`:
`[v for k, v in attrs.items() if k.startswith("attri")]`, keeping the
encoded order of the keys. -/
def attri_values (attrs : List (String × String)) : List String :=
  (attrs.filter (fun kv => py_startswith kv.1 "attri")).map (fun kv => kv.2)

/-- The filter used on source lines 66-71 to pick the structured-data block:
a `<script>` of type `application/ld+json` whose class is not the decoy
`yoast-schema-graph`. -/
def ld_script (sc : ScriptTag) : Bool :=
  sc.type_attr == "application/ld+json" &&
    sc.class_attr != some "yoast-schema-graph"

/-- The `for item in data_json` loop of source lines 60-64: for each variant
entry, overwrite `size` with the first attribute value whose key starts with
`"attri"` (raising `AttributeError` when `attributes` is absent and
`IndexError` when no key matches), overwrite `price` with the entry's
`display_price`, and append `Item(**parsed_product)` to the accumulator. -/
def variant_loop (pp : ParsedProduct) (acc : List Product) :
    List VariantEntry → Except PyErr (List Product)
  | [] => Except.ok acc
  | item :: rest =>
      match item.attributes with
      | none => Except.error PyErr.attrError
      | some attrs =>
          match attri_values attrs with
          | [] => Except.error PyErr.indexError
          | v :: _ =>
              let pp' := { pp with size := some v, price := item.display_price }
              match mkThemarket pp' with
              | Except.error e => Except.error e
              | Except.ok r => variant_loop pp' (acc ++ [r]) rest

/-- Source lines 54-75, the per-product body of the loop: build the
`parsed_product` dictionary for one fetched product page.  The title of
`h1.product_title` is required (`AttributeError` when absent).  When a
variations form is present, decode its `data-product_variations` attribute
(`TypeError` when the attribute is absent, `JSONDecodeError` when malformed)
and emit one record per entry via `variant_loop`; otherwise find the first
non-decoy JSON-LD script (`AttributeError` when there is none), decode it,
take `price` from the first offer (`TypeError` when `offers` is absent,
`IndexError` when it is empty) and `description` from the payload, and emit
exactly one record. -/
def parse_product (l : String) (pg : Html) : Except PyErr (List Product) :=
  let pp0 : ParsedProduct := { link := some l }
  match pg.title with
  | none => Except.error PyErr.attrError
  | some t =>
      let pp : ParsedProduct := { pp0 with name := some t }
      match pg.variations_form with
      | some form =>
          match form.data_product_variations with
          | none => Except.error PyErr.typeError
          | some Payload.malformed => Except.error PyErr.jsonError
          | some (Payload.ok entries) => variant_loop pp [] entries
      | none =>
          match pg.scripts.find? ld_script with
          | none => Except.error PyErr.attrError
          | some sc =>
              match sc.text with
              | Payload.malformed => Except.error PyErr.jsonError
              | Payload.ok ld =>
                  match ld.offers with
                  | none => Except.error PyErr.typeError
                  | some [] => Except.error PyErr.indexError
                  | some (o :: _) =>
                      match mkThemarket
                          { pp with price := o.price,
                                    description := ld.description } with
                      | Except.error e => Except.error e
                      | Except.ok r => Except.ok [r]

/-- Observable side effects of the run: `time.sleep(delay)` calls (recording
the argument passed, which is `None` when the robots policy declares no
crawl delay) and `session.get(url)` calls. -/
inductive Event where
  | sleep (d : Option Seconds)
  | get (url : String)
deriving DecidableEq, Repr

/-- The `for l in links[:3]` loop of source lines 51-75 applied to an already
truncated link list: for each link, sleep, fetch the product page with the
session, and parse it; a parse failure propagates (losing the records of the
current page, but keeping the trace of the work done so far).  Caveat:
`time.sleep` is modelled as the recording of its invocation; CPython raises
`TypeError` when its argument is `None`, so for a `None` delay the real loop
aborts at its first wait, whereas this model continues — at a `None` delay
the model is exact only up to that first recorded invocation, and claims
about fetching and parsing behaviour are exhibited at a non-`None` delay. -/
def product_loop (site : String → Html) (delay : Option Seconds) :
    List String → List Event × Except PyErr (List Product)
  | [] => ([], Except.ok [])
  | l :: rest =>
      let ev : List Event := [Event.sleep delay, Event.get l]
      match parse_product l (site l) with
      | Except.error e => (ev, Except.error e)
      | Except.ok recs =>
          let nxt := product_loop site delay rest
          match nxt.2 with
          | Except.error e => (ev ++ nxt.1, Except.error e)
          | Except.ok more => (ev ++ nxt.1, Except.ok (recs ++ more))

/-- Source lines 49-51: extract the product-title anchor hrefs of a listing
page, keep only the first three (`links[:3]`), and run the product loop on
them. -/
def page_results (site : String → Html) (delay : Option Seconds)
    (link : String) : List Event × Except PyErr (List Product) :=
  product_loop site delay ((site link).product_links.take 3)

/-- Source lines 29-87, `scrape_category`: sleep, fetch the listing page
directly with the session (`s.get`, not `safe_get`), process up to three
product links, then follow pagination.  The `try` of lines 78-85 catches
`AttributeError` only, so a structurally absent pagination widget — and,
because the recursive call sits inside the `try`, any `AttributeError`
escaping a deeper page — is swallowed, while every other exception
propagates.  `fuel` models the Python call-stack budget; `site` models what
`s.get` returns for each URL; the `category` argument is threaded through
the recursion exactly as in the source, which never otherwise uses it.
Caveat: as in `product_loop`, `time.sleep` is modelled as the recording of
its invocation; CPython raises `TypeError` on a `None` argument, so a real
run with a `None` delay aborts at the first wait of step 1, whereas this
model continues — at a `None` delay the model is exact only up to that
first recorded invocation, and claims about what is fetched and parsed are
exhibited at a non-`None` delay. -/
def scrape_category (site : String → Html) (fuel : Nat) (link : String)
    (category : String) (delay : Option Seconds) :
    List Event × Except PyErr (List Product) :=
  match fuel with
  | 0 => ([], Except.error PyErr.recursionError)
  | fuel' + 1 =>
      let pl := page_results site delay link
      let ev0 : List Event := Event.sleep delay :: Event.get link :: pl.1
      match pl.2 with
      | Except.error e => (ev0, Except.error e)
      | Except.ok results =>
          match (site link).pagination with
          | PaginationWidget.absent => (ev0, Except.ok results)
          | PaginationWidget.noNext => (ev0, Except.ok results)
          | PaginationWidget.nextNoHref =>
              (ev0 ++ [Event.sleep delay], Except.error PyErr.requestError)
          | PaginationWidget.nextTo url =>
              let nxt := scrape_category site fuel' url category delay
              match nxt.2 with
              | Except.ok next_results =>
                  (ev0 ++ nxt.1, Except.ok (results ++ next_results))
              | Except.error PyErr.attrError => (ev0 ++ nxt.1, Except.ok results)
              | Except.error e => (ev0 ++ nxt.1, Except.error e)

/-- The parsed robots.txt object: `can_fetch` answers whether a client
identifier may fetch a URL, `crawl_delay` reports the policy's suggested
delay for a client identifier (`none` when the policy declares none). -/
structure RobotFileParser where
  can_fetch : Option String → String → Bool
  crawl_delay : Option String → Option Seconds

/-- The requests session: `headers` models `s.headers.get` and `get` models
what `s.get` returns for each URL. -/
structure Session where
  headers : String → Option String
  get : String → Html

/-- Source lines 12-26, `safe_get`: consult the policy for the session's
declared `User-Agent`; perform the session GET when allowed, return the
`None` sentinel when not. -/
def safe_get (s : Session) (robots : RobotFileParser) (link : String) :
    Option Html :=
  if robots.can_fetch (s.headers "User-Agent") link then some (s.get link)
  else none

/-- A batch of `safe_get` fetches issued in the given order. -/
def safe_get_run (s : Session) (robots : RobotFileParser)
    (links : List String) : List (Option Html) :=
  links.map (fun l => safe_get s robots l)

/-- The `delay: float = 1` default declared by `scrape_category`. -/
def default_delay : Option Seconds := some 1

/-- Source line 126: the run driver reads the delay it will use from
`robots.crawl_delay(s.headers.get("User-Agent"))`, with no fallback. -/
def driver_delay (s : Session) (robots : RobotFileParser) : Option Seconds :=
  robots.crawl_delay (s.headers "User-Agent")

/-- Source lines 143-152: the run driver invokes `scrape_category` on one
category, passing the session, the category name, and `delay = delay` — the
value read from the policy, overriding the function's own default. -/
def run_category (s : Session) (robots : RobotFileParser) (fuel : Nat)
    (name link : String) : List Event × Except PyErr (List Product) :=
  scrape_category s.get fuel link name (driver_delay s robots)

/-- URLs for which a GET was issued, in trace order. -/
def fetched_urls (evs : List Event) : List String :=
  evs.filterMap (fun e =>
    match e with
    | Event.get u => some u
    | _ => none)

/-- A finite pagination chain: each listing page's next-link points to the
following page of the list, and the last page either has no next-link or no
pagination widget at all. -/
def isChain (site : String → Html) : List String → Prop
  | [] => True
  | [u] => (site u).pagination = PaginationWidget.noNext ∨
      (site u).pagination = PaginationWidget.absent
  | u :: v :: rest => (site u).pagination = PaginationWidget.nextTo v ∧
      isChain site (v :: rest)

/-- A JSON-LD payload with one offer of price 500 and a description. -/
def demo_ld : LdJson :=
  { offers := some [{ price := some 500 }], description := some "desc" }

/-- A well-formed structured-data script block holding `demo_ld`. -/
def demo_script : ScriptTag :=
  { type_attr := "application/ld+json", class_attr := none,
    text := Payload.ok demo_ld }

/-- A variant-free product page: title present, no variations form, one
JSON-LD block. -/
def demo_product_page : Html :=
  { title := some "Prod", scripts := [demo_script] }

/-- A single listing page with one product link and no next-page link. -/
def demo_listing : Html :=
  { product_links := ["https://x/p1"], pagination := PaginationWidget.noNext }

/-- A small site: one category listing page and one product page; every
other URL returns an empty body. -/
def demo_site : String → Html := fun u =>
  if u = "https://x/cat" then demo_listing
  else if u = "https://x/p1" then demo_product_page
  else {}

/-- A session whose headers carry the scraper's User-Agent and whose GETs
are answered by `demo_site`. -/
def demo_session : Session :=
  { headers := fun k =>
      if k = "User-Agent" then some "Webscraping Capacity Building 1.0"
      else if k = "From" then some "koibegbulam@nigerianstat.gov.ng"
      else none,
    get := demo_site }

/-- A robots policy that disallows every URL and declares no crawl delay. -/
def deny_all_robots : RobotFileParser :=
  { can_fetch := fun _ _ => false, crawl_delay := fun _ => none }

/-- The record the parser produces for `demo_product_page` fetched at
`https://x/p1` (note `category` is the model default `none`). -/
def demo_record : Product :=
  { link := "https://x/p1", source := "The Market Food Shop",
    name := some "Prod", price := 500, currency := "NGN",
    description := some "desc" }

/-- A product page whose title heading is absent. -/
def c3_bad_product : Html := { title := none }

/-- Second listing page of the C3 scenario: it links the broken product and
ends the chain. -/
def c3_page2 : Html :=
  { product_links := ["https://x/bad"], pagination := PaginationWidget.noNext }

/-- First listing page of the C3 scenario: no products, next-link to the
second page. -/
def c3_page1 : Html :=
  { product_links := [], pagination := PaginationWidget.nextTo "https://x/cat2" }

/-- A two-page category whose second page contains a product with a missing
title heading. -/
def c3_site : String → Html := fun u =>
  if u = "https://x/cat1" then c3_page1
  else if u = "https://x/cat2" then c3_page2
  else if u = "https://x/bad" then c3_bad_product
  else {}

/-- First page of a two-page chain with no products. -/
def c7_page1 : Html := { pagination := PaginationWidget.nextTo "https://x/c2" }

/-- Last page of the chain: pagination widget present, no next-link. -/
def c7_page2 : Html := { pagination := PaginationWidget.noNext }

/-- A two-page chain site. -/
def c7_site : String → Html := fun u =>
  if u = "https://x/c1" then c7_page1
  else if u = "https://x/c2" then c7_page2
  else {}

/-- Per-page record lists of the `c7_site` chain (its pages list no
products). -/
def c7_rs : String → List Product := fun _ => []

/-- A variant entry whose single attribute key matches the `attri` naming
convention. -/
def c5_e1 : VariantEntry :=
  { attributes := some [("attribute_pa_weight", "1kg")],
    display_price := some 100 }

/-- A variant entry with a non-matching key before the matching one. -/
def c5_e2 : VariantEntry :=
  { attributes := some [("color", "red"), ("attribute_pa_weight", "2kg")],
    display_price := some 200 }

/-- The decoded variations payload of the C5 witness page. -/
def c5_entries : List VariantEntry := [c5_e1, c5_e2]

/-- A variations form carrying the C5 payload. -/
def c5_form : VarForm :=
  { data_product_variations := some (Payload.ok c5_entries) }

/-- A product page with a variations form of two variant entries. -/
def c5_page : Html :=
  { title := some "VarProd", variations_form := some c5_form }

/-- The first `attri`-matching attribute value of a variant entry. -/
def c5_size : VariantEntry → String := fun e =>
  (attri_values (e.attributes.getD [])).headD ""

/-- The display price of a variant entry. -/
def c5_price : VariantEntry → Price := fun e => e.display_price.getD 0

/-- A JSON-LD payload with an offer but no description field. -/
def c10_ld : LdJson := { offers := some [{ price := some 700 }], description := none }

/-- A structured-data script block holding `c10_ld`. -/
def c10_script : ScriptTag :=
  { type_attr := "application/ld+json", class_attr := none,
    text := Payload.ok c10_ld }

/-- A variant-free product page whose payload has no description. -/
def c10_page : Html := { title := some "NoDesc", scripts := [c10_script] }

/-- A robots policy that allows exactly one URL and suggests a delay. -/
def c8_robots : RobotFileParser :=
  { can_fetch := fun _ u => u == "https://x/ok", crawl_delay := fun _ => some 2 }

/-- The first record the parser emits for `c5_page` fetched at
`https://x/pv`. -/
def c5_rec1 : Product :=
  { link := "https://x/pv", source := "The Market Food Shop",
    name := some "VarProd", size := some "1kg", price := 100,
    currency := "NGN" }

/-- The second record the parser emits for `c5_page`. -/
def c5_rec2 : Product :=
  { link := "https://x/pv", source := "The Market Food Shop",
    name := some "VarProd", size := some "2kg", price := 200,
    currency := "NGN" }

/-- The record the parser emits for `c10_page` fetched at `https://x/p2`:
its payload has no description, so the field stays `none`. -/
def c10_rec : Product :=
  { link := "https://x/p2", source := "The Market Food Shop",
    name := some "NoDesc", price := 700, currency := "NGN" }

/-- A robots policy that declares a crawl delay of 2 seconds but disallows
every URL — under it a real run reaches the fetching code (the politeness
waits receive a number), so what it fetches is decided purely by the
paginator. -/
def deny_robots_with_delay : RobotFileParser :=
  { can_fetch := fun _ _ => false, crawl_delay := fun _ => some 2 }

/-- A product page whose variations form carries a malformed
`data-product_variations` payload. -/
def c3_mal_product : Html :=
  { title := some "Mal",
    variations_form := some { data_product_variations := some Payload.malformed } }

/-- A variant-free product page with no structured-data script block. -/
def c3_noscript_product : Html := { title := some "NoScript" }

/-- A listing page whose second retained product has the malformed payload;
the first one is the well-formed `demo_product_page`. -/
def c3_deep_listing : Html :=
  { product_links := ["https://x/good", "https://x/mal"],
    pagination := PaginationWidget.noNext }

/-- A listing page with no products whose next-link points at
`c3_deep_listing`. -/
def c3_front_listing : Html :=
  { product_links := [], pagination := PaginationWidget.nextTo "https://x/d1" }

/-- A second error-scenario site: a front listing page leading to a deep
listing page whose second product has a malformed variations payload, plus
standalone broken product pages. -/
def c3_site2 : String → Html := fun u =>
  if u = "https://x/d0" then c3_front_listing
  else if u = "https://x/d1" then c3_deep_listing
  else if u = "https://x/good" then demo_product_page
  else if u = "https://x/mal" then c3_mal_product
  else if u = "https://x/noscript" then c3_noscript_product
  else {}

theorem scrape_category_succ (site : String → Html) (fuel : Nat)
    (link category : String) (delay : Option Seconds) :
    scrape_category site (fuel + 1) link category delay =
      (let pl := page_results site delay link
       let ev0 : List Event := Event.sleep delay :: Event.get link :: pl.1
       match pl.2 with
       | Except.error e => (ev0, Except.error e)
       | Except.ok results =>
           match (site link).pagination with
           | PaginationWidget.absent => (ev0, Except.ok results)
           | PaginationWidget.noNext => (ev0, Except.ok results)
           | PaginationWidget.nextNoHref =>
               (ev0 ++ [Event.sleep delay], Except.error PyErr.requestError)
           | PaginationWidget.nextTo url =>
               let nxt := scrape_category site fuel url category delay
               match nxt.2 with
               | Except.ok next_results =>
                   (ev0 ++ nxt.1, Except.ok (results ++ next_results))
               | Except.error PyErr.attrError =>
                   (ev0 ++ nxt.1, Except.ok results)
               | Except.error e => (ev0 ++ nxt.1, Except.error e)) := rfl

/-- C1: every record emitted while scraping a category should carry the
category name passed to `scrape_category`; in the code `parsed_product`
never receives the `category` argument, so the record's `category` field is
the model default `None` instead of the caller's name. -/
theorem C1_category_never_populated :
    (scrape_category demo_site 5 "https://x/cat" "Fruits" (some 1)).2 =
      Except.ok [demo_record]
  ∧ demo_record.category = none
  ∧ ¬ demo_record.category = some "Fruits" := by
  exact ⟨rfl, rfl, by simp [demo_record]⟩

/-- C2: every fetch of the paginator should go through `safe_get`, so that a
policy-denied URL is never fetched and never parsed; in the code
`scrape_category` calls `s.get` directly (source lines 47 and 53) and never
`safe_get`, so under a policy that disallows every URL — while declaring a
crawl delay of 2 seconds, so that the real run's politeness waits receive a
number and reach the fetching code — the denied product URL, for which
`safe_get` itself returns the denial sentinel, is still GET-fetched and its
body is parsed into a record. -/
theorem C2_fetch_gate_bypassed :
    deny_robots_with_delay.can_fetch (demo_session.headers "User-Agent")
        "https://x/p1" = false
  ∧ safe_get demo_session deny_robots_with_delay "https://x/p1" = none
  ∧ driver_delay demo_session deny_robots_with_delay = some 2
  ∧ Event.get "https://x/p1" ∈
      (run_category demo_session deny_robots_with_delay 5 "Fruits"
        "https://x/cat").1
  ∧ (run_category demo_session deny_robots_with_delay 5 "Fruits"
        "https://x/cat").2 = Except.ok [demo_record] := by
  refine ⟨rfl, rfl, rfl, ?_, rfl⟩
  decide

/-- C3 counterexample: the claim says a product page with a missing title
heading aborts the entire category traversal; on `c3_site` the broken
product sits on the second listing page, the `AttributeError` it raises is
caught by the first page's pagination `try`, and the traversal returns
normally with the first page's (empty) record list — while a direct call on
the second page alone does abort with that error. -/
theorem C3_deep_failure_swallowed :
    (scrape_category c3_site 5 "https://x/cat1" "c" (some 1)).2 =
      Except.ok []
  ∧ (scrape_category c3_site 4 "https://x/cat2" "c" (some 1)).2 =
      Except.error PyErr.attrError := ⟨rfl, rfl⟩

theorem product_loop_error (site : String → Html) (delay : Option Seconds)
    (e : PyErr) :
    ∀ (pre : List String) (l : String) (post : List String),
    (∀ x ∈ pre, ∃ r, parse_product x (site x) = Except.ok r) →
    parse_product l (site l) = Except.error e →
    (product_loop site delay (pre ++ l :: post)).2 = Except.error e := by
  intro pre
  induction pre with
  | nil =>
      intro l post hpre hl
      simp [product_loop, hl]
  | cons x xs ih =>
      intro l post hpre hl
      obtain ⟨r, hr⟩ := hpre x (List.mem_cons_self x xs)
      have h2 := ih l post (fun y hy => hpre y (List.mem_cons_of_mem x hy)) hl
      simp [product_loop, hr, h2]

/-- C3 amended: when the title heading of a retained product is absent, or
the variations payload is malformed, or the structured-data block is
missing, the parser raises; the per-page product loop propagates such a
failure whatever the product's position (once the products before it
parsed); on the listing page `scrape_category` was invoked on this failure
is unhandled and aborts the traversal; a missing pagination widget (or a
missing next-link) is tolerated as graceful termination; but because the
recursive pagination call sits inside the `try/except AttributeError` of
source lines 78-85, an `AttributeError` escaping a deeper page is caught
and swallowed — the traversal returns the earlier pages' results instead of
aborting — while a non-`AttributeError` failure such as malformed JSON
propagates from every depth. -/
theorem C3_failure_propagation (site : String → Html) (fuel : Nat)
    (link cat : String) (delay : Option Seconds) (t : String)
    (form : VarForm) (pre post : List String) (l u : String)
    (rs : List Product) (e : PyErr) :
    ( (site l).title = none →
      parse_product l (site l) = Except.error PyErr.attrError )
  ∧ ( (site l).title = some t → (site l).variations_form = some form →
      form.data_product_variations = some Payload.malformed →
      parse_product l (site l) = Except.error PyErr.jsonError )
  ∧ ( (site l).title = some t → (site l).variations_form = none →
      (site l).scripts.find? ld_script = none →
      parse_product l (site l) = Except.error PyErr.attrError )
  ∧ ( (site link).product_links.take 3 = pre ++ l :: post →
      (∀ x ∈ pre, ∃ r, parse_product x (site x) = Except.ok r) →
      parse_product l (site l) = Except.error e →
      (page_results site delay link).2 = Except.error e )
  ∧ ( (page_results site delay link).2 = Except.error e →
      (scrape_category site (fuel + 1) link cat delay).2 = Except.error e )
  ∧ ( ((site link).pagination = PaginationWidget.absent ∨
       (site link).pagination = PaginationWidget.noNext) →
      (page_results site delay link).2 = Except.ok rs →
      (scrape_category site (fuel + 1) link cat delay).2 = Except.ok rs )
  ∧ ( (site link).pagination = PaginationWidget.nextTo u →
      (page_results site delay link).2 = Except.ok rs →
      (scrape_category site fuel u cat delay).2 =
        Except.error PyErr.attrError →
      (scrape_category site (fuel + 1) link cat delay).2 = Except.ok rs )
  ∧ ( (site link).pagination = PaginationWidget.nextTo u →
      (page_results site delay link).2 = Except.ok rs →
      e ≠ PyErr.attrError →
      (scrape_category site fuel u cat delay).2 = Except.error e →
      (scrape_category site (fuel + 1) link cat delay).2 =
        Except.error e ) := by
  refine ⟨?_, ?_, ?_, ?_, ?_, ?_, ?_, ?_⟩
  · intro h1
    simp [parse_product, h1]
  · intro h1 h2 h3
    simp [parse_product, h1, h2, h3]
  · intro h1 h2 h3
    simp [parse_product, h1, h2, h3]
  · intro htake hpre hl
    simp only [page_results]
    rw [htake]
    exact product_loop_error site delay e pre l post hpre hl
  · intro hpr
    rw [scrape_category_succ]
    dsimp only
    rw [hpr]
  · intro hpag hpr
    rcases hpag with h | h <;>
      (rw [scrape_category_succ]; dsimp only; simp only [hpr, h])
  · intro hpag hpr hrec
    rw [scrape_category_succ]
    dsimp only
    simp only [hpr, hpag, hrec]
  · intro hpag hpr hne hrec
    rw [scrape_category_succ]
    dsimp only
    cases e with
    | attrError => exact absurd rfl hne
    | typeError => simp only [hpr, hpag, hrec]
    | indexError => simp only [hpr, hpag, hrec]
    | jsonError => simp only [hpr, hpag, hrec]
    | validationError => simp only [hpr, hpag, hrec]
    | requestError => simp only [hpr, hpag, hrec]
    | recursionError => simp only [hpr, hpag, hrec]

/-- C3 witness for the amended theorem, one concrete instance per part: the
parser raises on a missing title, a malformed variations payload and a
missing script block; the malformed payload of the second retained product
of a listing page fails that page's product loop and aborts a direct call
on it; a page with an absent pagination widget terminates gracefully; the
deep missing-title `AttributeError` is swallowed by the front page; and the
deep malformed-payload `JSONDecodeError` propagates through the front
page. -/
theorem C3_failure_propagation_w :
    parse_product "https://x/bad" (c3_site "https://x/bad") =
      Except.error PyErr.attrError
  ∧ parse_product "https://x/mal" (c3_site2 "https://x/mal") =
      Except.error PyErr.jsonError
  ∧ parse_product "https://x/noscript" (c3_site2 "https://x/noscript") =
      Except.error PyErr.attrError
  ∧ (page_results c3_site2 (some 1) "https://x/d1").2 =
      Except.error PyErr.jsonError
  ∧ (scrape_category c3_site2 7 "https://x/d1" "veg" (some 1)).2 =
      Except.error PyErr.jsonError
  ∧ (scrape_category c3_site 7 "https://x/empty" "veg" (some 1)).2 =
      Except.ok []
  ∧ (scrape_category c3_site 7 "https://x/cat1" "veg" (some 1)).2 =
      Except.ok []
  ∧ (scrape_category c3_site2 7 "https://x/d0" "veg" (some 1)).2 =
      Except.error PyErr.jsonError :=
  ⟨(C3_failure_propagation c3_site 0 "" "" none "" { data_product_variations := none }
      [] [] "https://x/bad" "" [] PyErr.attrError).1 rfl,
   (C3_failure_propagation c3_site2 0 "" "" none "Mal"
      { data_product_variations := some Payload.malformed }
      [] [] "https://x/mal" "" [] PyErr.jsonError).2.1 rfl rfl rfl,
   (C3_failure_propagation c3_site2 0 "" "" none "NoScript"
      { data_product_variations := none }
      [] [] "https://x/noscript" "" [] PyErr.attrError).2.2.1 rfl rfl rfl,
   (C3_failure_propagation c3_site2 0 "https://x/d1" "" (some 1) ""
      { data_product_variations := none }
      ["https://x/good"] [] "https://x/mal" "" [] PyErr.jsonError).2.2.2.1
      rfl
      (by intro x hx
          simp only [List.mem_singleton] at hx
          subst hx
          exact ⟨_, rfl⟩)
      rfl,
   (C3_failure_propagation c3_site2 6 "https://x/d1" "veg" (some 1) ""
      { data_product_variations := none }
      [] [] "" "" [] PyErr.jsonError).2.2.2.2.1 rfl,
   (C3_failure_propagation c3_site 6 "https://x/empty" "veg" (some 1) ""
      { data_product_variations := none }
      [] [] "" "" [] PyErr.attrError).2.2.2.2.2.1 (Or.inl rfl) rfl,
   (C3_failure_propagation c3_site 6 "https://x/cat1" "veg" (some 1) ""
      { data_product_variations := none }
      [] [] "" "https://x/cat2" [] PyErr.attrError).2.2.2.2.2.2.1
      rfl rfl rfl,
   (C3_failure_propagation c3_site2 6 "https://x/d0" "veg" (some 1) ""
      { data_product_variations := none }
      [] [] "" "https://x/d1" [] PyErr.jsonError).2.2.2.2.2.2.2
      rfl rfl (by decide) rfl⟩

theorem product_loop_fetched (site : String → Html) (delay : Option Seconds) :
    ∀ ls : List String, ∃ k,
      fetched_urls (product_loop site delay ls).1 = ls.take k := by
  intro ls
  induction ls with
  | nil => exact ⟨0, rfl⟩
  | cons l rest ih =>
      obtain ⟨k, hk⟩ := ih
      cases hp : parse_product l (site l) with
      | error e =>
          refine ⟨1, ?_⟩
          simp [product_loop, hp, fetched_urls]
      | ok recs =>
          refine ⟨k + 1, ?_⟩
          simp only [product_loop, hp]
          cases hn : (product_loop site delay rest).2 <;>
            simp_all [fetched_urls, List.take_succ_cons]

/-- C4: for every listing page fetched by the paginator, at most the first
three extracted product links are fetched and handed to the parser: the
URLs for which the per-page product loop issues a GET are a prefix of the
first three entries of the page's product-link list (a strict prefix only
when a parse failure aborts the loop early), hence never more than three. -/
theorem C4_at_most_first_three (site : String → Html) (delay : Option Seconds)
    (link : String) :
    ∃ k, fetched_urls (page_results site delay link).1 =
        ((site link).product_links.take 3).take k
      ∧ (fetched_urls (page_results site delay link).1).length ≤ 3 := by
  obtain ⟨k, hk⟩ :=
    product_loop_fetched site delay ((site link).product_links.take 3)
  have hpr : fetched_urls (page_results site delay link).1 =
      ((site link).product_links.take 3).take k := by
    simp only [page_results]
    exact hk
  refine ⟨k, hpr, ?_⟩
  rw [hpr]
  simp [List.length_take]

theorem variant_loop_ok (l t : String) (size_of : VariantEntry → String)
    (price_of : VariantEntry → Price) :
    ∀ (entries : List VariantEntry) (pp : ParsedProduct) (acc : List Product),
    pp.link = some l → pp.name = some t → pp.description = none →
    (∀ e ∈ entries, ∃ attrs, e.attributes = some attrs ∧
        (attri_values attrs).head? = some (size_of e)) →
    (∀ e ∈ entries, e.display_price = some (price_of e)) →
    variant_loop pp acc entries =
      Except.ok (acc ++ entries.map (fun e =>
        { link := l, source := "The Market Food Shop", name := some t,
          size := some (size_of e), price := price_of e,
          currency := "NGN" })) := by
  intro entries
  induction entries with
  | nil =>
      intro pp acc h1 h2 h3 h4 h5
      simp [variant_loop]
  | cons e rest ih =>
      intro pp acc hlink hname hdesc hsize hprice
      obtain ⟨attrs, hattrs, hhead⟩ := hsize e (List.mem_cons_self e rest)
      obtain ⟨tl, hav⟩ : ∃ tl, attri_values attrs = size_of e :: tl := by
        cases hv : attri_values attrs with
        | nil => rw [hv] at hhead; simp at hhead
        | cons a tl =>
            rw [hv] at hhead
            simp only [List.head?_cons, Option.some.injEq] at hhead
            exact ⟨tl, by rw [hhead]⟩
      have hp := hprice e (List.mem_cons_self e rest)
      obtain ⟨plink, pname, psize, pprice, pdesc⟩ := pp
      dsimp only at hlink hname hdesc
      subst hlink hname hdesc
      simp only [variant_loop, hattrs, hav, hp, mkThemarket]
      rw [ih _ (acc ++ [_]) rfl rfl rfl
        (fun x hx => hsize x (List.mem_cons_of_mem e hx))
        (fun x hx => hprice x (List.mem_cons_of_mem e hx))]
      simp

/-- C5: for a product page with a variations form whose payload decodes to a
list of variant entries, the parser emits exactly one record per entry (a
`List.map`); each record's `size` is the value of the first attribute, in
encoded order, whose key starts with `"attri"`, its `price` is the entry's
`display_price`, and all records share `link` and `name` and agree on every
field other than `size` and `price`. -/
theorem C5_one_record_per_variant (l t : String) (pg : Html) (form : VarForm)
    (entries : List VariantEntry)
    (size_of : VariantEntry → String) (price_of : VariantEntry → Price)
    (htitle : pg.title = some t)
    (hform : pg.variations_form = some form)
    (hdata : form.data_product_variations = some (Payload.ok entries))
    (hsize : ∀ e ∈ entries, ∃ attrs, e.attributes = some attrs ∧
        (attri_values attrs).head? = some (size_of e))
    (hprice : ∀ e ∈ entries, e.display_price = some (price_of e)) :
    parse_product l pg =
      Except.ok (entries.map (fun e =>
        { link := l, source := "The Market Food Shop", name := some t,
          size := some (size_of e), price := price_of e,
          currency := "NGN" })) := by
  simp only [parse_product, htitle, hform, hdata]
  rw [variant_loop_ok l t size_of price_of entries _ [] rfl rfl rfl hsize hprice]
  simp

/-- C5 witness: on a concrete two-variant page the parser emits two records
whose sizes are the first `attri`-keyed attribute values and whose prices
are the entries' display prices. -/
theorem C5_one_record_per_variant_w :
    parse_product "https://x/pv" c5_page =
      Except.ok (c5_entries.map (fun e =>
        { link := "https://x/pv", source := "The Market Food Shop",
          name := some "VarProd", size := some (c5_size e),
          price := c5_price e, currency := "NGN" })) :=
  C5_one_record_per_variant "https://x/pv" "VarProd" c5_page c5_form
    c5_entries c5_size c5_price rfl rfl rfl
    (by intro e he
        simp only [c5_entries, List.mem_cons, List.not_mem_nil, or_false] at he
        rcases he with rfl | rfl
        · exact ⟨_, rfl, rfl⟩
        · exact ⟨_, rfl, rfl⟩)
    (by intro e he
        simp only [c5_entries, List.mem_cons, List.not_mem_nil, or_false] at he
        rcases he with rfl | rfl <;> rfl)

/-- C6: for a product page without a variations form, the parser emits
exactly one record; the structured-data payload it uses is the first script
block of type `application/ld+json` whose class is not the decoy
`yoast-schema-graph` (the `ld_script` filter), `price` is the price of the
first entry of that payload's offers list, and `description` is the
payload's description field. -/
theorem C6_single_record_from_ld (l t : String) (pg : Html) (sc : ScriptTag)
    (ld : LdJson) (o : Offer) (os : List Offer) (p : Price)
    (htitle : pg.title = some t)
    (hform : pg.variations_form = none)
    (hfind : pg.scripts.find? ld_script = some sc)
    (htext : sc.text = Payload.ok ld)
    (hoffers : ld.offers = some (o :: os))
    (hprice : o.price = some p) :
    parse_product l pg =
      Except.ok [{ link := l, source := "The Market Food Shop",
                   name := some t, price := p, currency := "NGN",
                   description := ld.description }] := by
  simp only [parse_product, htitle, hform, hfind, htext, hoffers, hprice,
    mkThemarket]

/-- C6 witness: on the concrete variant-free page the parser emits exactly
the one record with the first offer's price and the payload's
description. -/
theorem C6_single_record_from_ld_w :
    parse_product "https://x/p1" demo_product_page =
      Except.ok [{ link := "https://x/p1", source := "The Market Food Shop",
                   name := some "Prod", price := 500, currency := "NGN",
                   description := demo_ld.description }] :=
  C6_single_record_from_ld "https://x/p1" "Prod" demo_product_page
    demo_script demo_ld { price := some 500 } [] 500 rfl rfl rfl rfl rfl rfl

/-- C7: for a finite chain of N listing pages in which pages 1..N-1 carry a
next-link to the following page and page N has no next-link (or no
pagination widget), and in which every page's product processing succeeds,
`scrape_category` terminates without error, its trace is exactly the
concatenation, in page order, of one sleep, one listing-page GET and the
product-loop trace per page — hence exactly N listing-page fetches — and
its result is the concatenation of all pages' record lists in page order. -/
theorem C7_chain_exact_fetches (site : String → Html) (delay : Option Seconds)
    (cat : String) (rs : String → List Product) :
    ∀ (rest : List String) (u : String) (fuel : Nat),
    isChain site (u :: rest) → (u :: rest).length ≤ fuel →
    (∀ x ∈ u :: rest, (page_results site delay x).2 = Except.ok (rs x)) →
    scrape_category site fuel u cat delay =
      (((u :: rest).map (fun x =>
          Event.sleep delay :: Event.get x ::
            (page_results site delay x).1)).flatten,
       Except.ok (((u :: rest).map rs).flatten)) := by
  intro rest
  induction rest with
  | nil =>
      intro u fuel hchain hlen hok
      obtain ⟨f, rfl⟩ : ∃ f, fuel = f + 1 := by
        cases fuel with
        | zero => simp at hlen
        | succ f => exact ⟨f, rfl⟩
      simp only [isChain] at hchain
      rw [scrape_category_succ]
      dsimp only
      rw [hok u (List.mem_cons_self u [])]
      rcases hchain with h | h <;> simp [h]
  | cons v rest ih =>
      intro u fuel hchain hlen hok
      obtain ⟨f, rfl⟩ : ∃ f, fuel = f + 1 := by
        cases fuel with
        | zero => simp at hlen
        | succ f => exact ⟨f, rfl⟩
      simp only [isChain] at hchain
      obtain ⟨hpag, hchain'⟩ := hchain
      rw [scrape_category_succ]
      dsimp only
      simp only [hok u (List.mem_cons_self u (v :: rest)), hpag]
      rw [ih v f hchain' (by simp at hlen ⊢; omega)
        (fun x hx => hok x (List.mem_cons_of_mem u hx))]
      simp [List.flatten]

/-- C7 witness: on the concrete two-page chain the traversal performs
exactly two listing fetches, terminates without error, and returns the
two pages' results in order. -/
theorem C7_chain_exact_fetches_w :
    scrape_category c7_site 2 "https://x/c1" "c" (some 1) =
      ((["https://x/c1", "https://x/c2"].map (fun x =>
          Event.sleep (some 1) :: Event.get x ::
            (page_results c7_site (some 1) x).1)).flatten,
       Except.ok ((["https://x/c1", "https://x/c2"].map c7_rs).flatten)) :=
  C7_chain_exact_fetches c7_site (some 1) "c" c7_rs ["https://x/c2"]
    "https://x/c1" 2 ⟨rfl, Or.inl rfl⟩ (by decide)
    (by intro x hx; fin_cases hx <;> rfl)

/-- C8: `safe_get` returns the session's GET response exactly when the
policy allows the session's declared `User-Agent` to fetch the URL, and the
`None` denial sentinel otherwise; the decision is a pure function of the
policy and the URL, so in any batch of fetches the outcome at each position
is independent of the fetches issued before or after it. -/
theorem C8_policy_gate (s : Session) (robots : RobotFileParser)
    (link : String) :
    (robots.can_fetch (s.headers "User-Agent") link = true →
        safe_get s robots link = some (s.get link))
  ∧ (robots.can_fetch (s.headers "User-Agent") link = false →
        safe_get s robots link = none)
  ∧ (∀ prior later : List String,
        safe_get_run s robots (prior ++ link :: later) =
          safe_get_run s robots prior ++
            safe_get s robots link :: safe_get_run s robots later) := by
  refine ⟨?_, ?_, ?_⟩
  · intro h; simp [safe_get, h]
  · intro h; simp [safe_get, h]
  · intro prior later; simp [safe_get_run]

/-- C8 witness: under a concrete policy allowing one URL and denying
another, `safe_get` performs the GET for the allowed URL and returns the
denial sentinel for the other. -/
theorem C8_policy_gate_w :
    safe_get demo_session c8_robots "https://x/ok" =
      some (demo_session.get "https://x/ok")
  ∧ safe_get demo_session c8_robots "https://x/p1" = none :=
  ⟨(C8_policy_gate demo_session c8_robots "https://x/ok").1 rfl,
   (C8_policy_gate demo_session c8_robots "https://x/p1").2.1 rfl⟩

theorem scrape_category_trace_head (site : String → Html) (fuel : Nat)
    (link cat : String) (delay : Option Seconds) :
    (scrape_category site (fuel + 1) link cat delay).1.head? =
      some (Event.sleep delay) := by
  rw [scrape_category_succ]
  dsimp only
  cases h1 : (page_results site delay link).2 with
  | error e => simp
  | ok results =>
      cases h2 : (site link).pagination with
      | absent => simp
      | noNext => simp
      | nextNoHref => simp
      | nextTo url =>
          cases h3 : (scrape_category site fuel url cat delay).2 with
          | ok nr => simp [h3]
          | error e => cases e <;> simp [h3]

/-- C9: when the robots policy declares no crawl delay, the run driver
reads `None` from `crawl_delay` and passes it through as the `delay`
argument of `scrape_category`, overriding the function's declared 1-second
default, and the traversal's first step is then the politeness wait invoked
with that null duration. -/
theorem C9_none_delay_passthrough (s : Session) (robots : RobotFileParser)
    (fuel : Nat) (name link : String)
    (h : robots.crawl_delay (s.headers "User-Agent") = none) :
    driver_delay s robots = none
  ∧ driver_delay s robots ≠ default_delay
  ∧ run_category s robots (fuel + 1) name link =
      scrape_category s.get (fuel + 1) link name none
  ∧ (run_category s robots (fuel + 1) name link).1.head? =
      some (Event.sleep none) := by
  have hd : driver_delay s robots = none := h
  refine ⟨hd, ?_, ?_, ?_⟩
  · rw [hd]; simp [default_delay]
  · rw [run_category, hd]
  · rw [run_category, hd]
    exact scrape_category_trace_head s.get fuel link name none

/-- C9 witness: with the concrete policy declaring no crawl delay, the
driver passes `None` through and the first trace event is a sleep with the
null duration. -/
theorem C9_none_delay_passthrough_w :
    driver_delay demo_session deny_all_robots = none
  ∧ driver_delay demo_session deny_all_robots ≠ default_delay
  ∧ run_category demo_session deny_all_robots 3 "Fruits" "https://x/cat" =
      scrape_category demo_session.get 3 "https://x/cat" "Fruits" none
  ∧ (run_category demo_session deny_all_robots 3 "Fruits"
        "https://x/cat").1.head? = some (Event.sleep none) :=
  C9_none_delay_passthrough demo_session deny_all_robots 2 "Fruits"
    "https://x/cat" rfl

theorem variant_loop_shape :
    ∀ (entries : List VariantEntry) (pp : ParsedProduct)
      (acc recs : List Product),
    pp.description = none →
    (∀ r ∈ acc, r.size.isSome ∧ r.description = none) →
    variant_loop pp acc entries = Except.ok recs →
    ∀ r ∈ recs, r.size.isSome ∧ r.description = none := by
  intro entries
  induction entries with
  | nil =>
      intro pp acc recs hdesc hacc hloop
      simp only [variant_loop, Except.ok.injEq] at hloop
      subst hloop
      exact hacc
  | cons e rest ih =>
      intro pp acc recs hdesc hacc hloop
      obtain ⟨plink, pname, psize, pprice, pdesc⟩ := pp
      dsimp only at hdesc
      subst hdesc
      simp only [variant_loop, mkThemarket] at hloop
      cases hattrs : e.attributes with
      | none => simp [hattrs] at hloop
      | some attrs =>
          simp only [hattrs] at hloop
          cases hav : attri_values attrs with
          | nil => simp [hav] at hloop
          | cons v tl =>
              simp only [hav] at hloop
              cases hl : plink with
              | none => simp [hl] at hloop
              | some l =>
                  simp only [hl] at hloop
                  cases hdp : e.display_price with
                  | none => simp [hdp] at hloop
                  | some p =>
                      simp only [hdp] at hloop
                      refine ih _ _ _ rfl ?_ hloop
                      intro r hr
                      rcases List.mem_append.mp hr with hr | hr
                      · exact hacc r hr
                      · simp only [List.mem_singleton] at hr
                        subst hr
                        exact ⟨rfl, rfl⟩

/-- C10 amended: records from the two parsing branches never mix sizes and
descriptions: every record emitted for a product with a variations form has
a `size` and a `none` description, and every record emitted for a product
without one has no `size` — but its `description` is whatever the
structured-data payload carries, which may itself be absent, so
"description set" holds only when the payload has one; in no case does a
record carry both a size and a description. -/
theorem C10_record_shapes (l : String) (pg : Html) (recs : List Product)
    (r : Product) (hok : parse_product l pg = Except.ok recs)
    (hr : r ∈ recs) :
    ((pg.variations_form.isSome ∧ r.size.isSome ∧ r.description = none) ∨
     (pg.variations_form = none ∧ r.size = none))
  ∧ ¬(r.size.isSome ∧ r.description.isSome) := by
  simp only [parse_product] at hok
  cases hti : pg.title with
  | none => simp [hti] at hok
  | some t =>
      simp only [hti] at hok
      cases hvf : pg.variations_form with
      | some form =>
          simp only [hvf] at hok
          cases hdata : form.data_product_variations with
          | none => simp [hdata] at hok
          | some pl =>
              simp only [hdata] at hok
              cases pl with
              | malformed => simp at hok
              | ok entries =>
                  have hshape := variant_loop_shape entries _ [] recs rfl
                    (by simp) hok r hr
                  refine ⟨Or.inl ⟨by simp [hvf], hshape⟩, ?_⟩
                  rintro ⟨-, hds⟩
                  rw [hshape.2] at hds
                  simp at hds
      | none =>
          simp only [hvf] at hok
          cases hfind : pg.scripts.find? ld_script with
          | none => simp [hfind] at hok
          | some sc =>
              simp only [hfind] at hok
              cases htext : sc.text with
              | malformed => simp [htext] at hok
              | ok ld =>
                  simp only [htext] at hok
                  cases hoff : ld.offers with
                  | none => simp [hoff] at hok
                  | some offers =>
                      simp only [hoff] at hok
                      cases offers with
                      | nil => simp at hok
                      | cons o os =>
                          simp only [mkThemarket] at hok
                          cases hop : o.price with
                          | none => simp [hop] at hok
                          | some p =>
                              simp only [hop, Except.ok.injEq] at hok
                              subst hok
                              simp only [List.mem_singleton] at hr
                              subst hr
                              exact ⟨Or.inr ⟨rfl, rfl⟩, by simp⟩

/-- C10 witness: the two records of the concrete variant page have sizes
and no descriptions, so they fall in the variants-branch shape and never
carry both a size and a description. -/
theorem C10_record_shapes_w :
    ((c5_page.variations_form.isSome ∧ c5_rec1.size.isSome ∧
        c5_rec1.description = none) ∨
     (c5_page.variations_form = none ∧ c5_rec1.size = none))
  ∧ ¬(c5_rec1.size.isSome ∧ c5_rec1.description.isSome) :=
  C10_record_shapes "https://x/pv" c5_page [c5_rec1, c5_rec2] c5_rec1 rfl
    (List.mem_cons_self c5_rec1 [c5_rec2])

/-- C10 counterexample: the claim says every record emitted for a product
without a variations form has `price` and `description` set; on a concrete
variant-free page whose structured-data payload lacks a description, the
parser emits a record whose `description` is `none`. -/
theorem C10_description_can_be_unset :
    c10_page.variations_form = none
  ∧ parse_product "https://x/p2" c10_page = Except.ok [c10_rec]
  ∧ c10_rec.description = none := ⟨rfl, rfl, rfl⟩
